import Mathlib

/-!
Verification of the Smart College Attendance demo
(`src/smart_college_attendance_react_preview_mocked_demo.jsx`, the
mocked-backend variant that follows the `RELATED_DOC` separator).

Dates are modelled as natural numbers counting calendar days from the
JavaScript epoch 1970-01-01 (a Thursday, so `getDay()` of day `d` is
`(d + 4) % 7`, with 0 = Sunday and 6 = Saturday, exactly as in the
source's `isWeekday`).  The localStorage user table is modelled as a
function `String → Option Account`, the per-user attendance ledger as a
`List Nat` of marked days (the source stores a JSON array of ISO dates),
and the external collaborators (selfie capture, WebAuthn) as boolean
inputs, since the source only branches on their success.
-/

namespace SmartAttendance

/-- Source `isWeekday` (line 259): `getDay()` must be neither 0 (Sunday)
nor 6 (Saturday). -/
def isWeekday (d : Nat) : Bool :=
  let day := (d + 4) % 7
  day != 0 && day != 6

/-- Source `workingDaysCount` (line 264): iterate one day at a time from
`startD` up to and including `endD`, counting weekdays.  When
`endD < startD` the loop body never runs (the `Nat` subtraction makes the
range empty). -/
def workingDaysCount (startD endD : Nat) : Nat :=
  (List.range (endD + 1 - startD)).countP (fun i => isWeekday (startD + i))

example : workingDaysCount 4 4 = 1 := by decide
example : workingDaysCount 2 3 = 0 := by decide
example : workingDaysCount 5 4 = 0 := by decide
example : workingDaysCount 0 6 = 5 := by decide

/-- Claim C6: for every date `start`, `workingDays(start, start)` is 1 when
`start` is a weekday (Monday through Friday) and 0 when it falls on
Saturday or Sunday. -/
theorem workingDaysCount_single_day (s : Nat) :
    workingDaysCount s s = if isWeekday s then 1 else 0 := by
  cases h : isWeekday s <;>
    simp [workingDaysCount, Nat.add_sub_cancel_left, List.range_succ,
      List.countP_cons, h]

/-- Claim C7: with the start date fixed, the working-day count is
monotonically non-decreasing in the end date. -/
theorem workingDaysCount_mono (s e1 e2 : Nat) (h : e1 ≤ e2) :
    workingDaysCount s e1 ≤ workingDaysCount s e2 := by
  unfold workingDaysCount
  exact List.Sublist.countP_le _ (List.range_sublist.mpr (by omega))

/-- Witness for C7 at start 0, end dates 1 ≤ 3. -/
theorem workingDaysCount_mono_witness :
    workingDaysCount 0 1 ≤ workingDaysCount 0 3 :=
  workingDaysCount_mono 0 1 3 (by decide)

/-- Rounding as in `Number.prototype.toFixed(2)` on an exact value:
round to the nearest multiple of 1/100, ties toward the larger value
(ECMAScript picks the larger candidate integer). -/
def round2 (x : ℚ) : ℚ :=
  ((⌊x * 100 + 1 / 2⌋ : ℤ) : ℚ) / 100

/-- Source line 424: `absentDays = Math.max(0, workingDays - presentDays)`.
JavaScript subtraction is over (exact) integers here, so the result lives
in `ℤ` before the clamp. -/
def absentDays (workingDays presentDays : Nat) : Int :=
  max 0 ((workingDays : Int) - (presentDays : Int))

/-- Source lines 425-429: the `percentage` memo.  Returns 0 when
`workingDays = 0`, otherwise `((presentDays - absentDays) / workingDays) *
100` shown with `toFixed(2)`. -/
def percentage (workingDays presentDays : Nat) : ℚ :=
  if workingDays = 0 then 0
  else round2 ((((presentDays : ℚ) - ((absentDays workingDays presentDays : ℤ) : ℚ))
      / (workingDays : ℚ)) * 100)

/-- The derived attendance statistics shown on the dashboard. -/
structure Stats where
  workingDays : Nat
  presentDays : Nat
  absentDays : Int
  percentage : ℚ
  deriving Repr, DecidableEq

/-- Source lines 421-429 assembled: `workingDays` from the semester start
to today, `presentDays = attendanceDates.length`, then the absent count
and percentage. -/
def stats (semStart today : Nat) (dates : List Nat) : Stats :=
  let wd := workingDaysCount semStart today
  let present := dates.length
  { workingDays := wd
    presentDays := present
    absentDays := absentDays wd present
    percentage := percentage wd present }

/-- Written from the spec's words (§4.2 `stats`): `absentDays =
max(0, workingDays - presentDays)`. -/
def absentDaysSpec (workingDays presentDays : Nat) : Int :=
  max 0 ((workingDays : Int) - (presentDays : Int))

/-- Written from the spec's words (§4.2 `stats`): `percentage =
(presentDays - absentDays) / workingDays * 100` rounded to two decimals,
or 0 when `workingDays = 0`. -/
def percentageSpec (workingDays presentDays : Nat) : ℚ :=
  if workingDays = 0 then 0
  else round2 ((((presentDays : ℚ) - ((absentDaysSpec workingDays presentDays : ℤ) : ℚ))
      / (workingDays : ℚ)) * 100)

/-- Claim C1: for every semester start, current day and ledger, the stats
computation returns `absentDays = max(0, workingDays - presentDays)` and
`percentage` equal to the spec's formula rounded to two decimals, with
`percentage = 0` whenever `workingDays = 0` (no division by zero can
occur). -/
theorem stats_percentage_formula (semStart today : Nat) (dates : List Nat) :
    (stats semStart today dates).absentDays =
      max 0 (((stats semStart today dates).workingDays : Int)
        - ((stats semStart today dates).presentDays : Int)) ∧
    (stats semStart today dates).percentage =
      percentageSpec (stats semStart today dates).workingDays
        (stats semStart today dates).presentDays ∧
    ((stats semStart today dates).workingDays = 0 →
      (stats semStart today dates).percentage = 0) := by
  refine ⟨rfl, rfl, ?_⟩
  intro h
  have h1 : (stats semStart today dates).percentage
      = percentage (stats semStart today dates).workingDays
        (stats semStart today dates).presentDays := rfl
  rw [h1, h]
  simp [percentage]

/-- Witness for C1 at semester start 5, today 4 (start after today, so
`workingDays = 0`) and the empty ledger. -/
theorem stats_percentage_formula_witness :
    (stats 5 4 []).absentDays =
      max 0 (((stats 5 4 []).workingDays : Int) - ((stats 5 4 []).presentDays : Int)) ∧
    (stats 5 4 []).percentage = 0 := by
  have h := stats_percentage_formula 5 4 []
  exact ⟨h.1, h.2.2 (by decide)⟩

/-- Counterexample for C2: in the (reachable) state where the semester
start is day 5 and today is day 4, `workingDays = 0` and the empty ledger
has `presentDays = 0 = workingDays`, yet the percentage is 0, not 100. -/
theorem stats_full_attendance_zero_days_cex :
    (stats 5 4 []).presentDays = (stats 5 4 []).workingDays ∧
    (stats 5 4 []).percentage ≠ 100 := by
  constructor
  · decide
  · show percentage 0 0 ≠ 100
    norm_num [percentage]

lemma percentage_self (n : Nat) (h : n ≠ 0) : percentage n n = 100 := by
  have hq : (n : ℚ) ≠ 0 := Nat.cast_ne_zero.mpr h
  have habs : absentDays n n = 0 := by simp [absentDays]
  rw [percentage, if_neg h, habs]
  have h2 : (((n : ℚ) - ((0 : ℤ) : ℚ)) / (n : ℚ)) * 100 = 100 := by
    push_cast
    field_simp
  rw [h2, round2]
  have hfloor : ⌊(100 : ℚ) * 100 + 1 / 2⌋ = 10000 := by
    rw [Int.floor_eq_iff]
    norm_num
  rw [hfloor]
  norm_num

/-- Claim C2 as amended: whenever `presentDays = workingDays` and
`workingDays ≠ 0`, the stats computation yields `percentage = 100`
(with `workingDays = 0` the guard returns 0 instead). -/
theorem stats_full_attendance_percentage (semStart today : Nat) (dates : List Nat)
    (hfull : (stats semStart today dates).presentDays =
      (stats semStart today dates).workingDays)
    (hpos : (stats semStart today dates).workingDays ≠ 0) :
    (stats semStart today dates).percentage = 100 := by
  have h1 : (stats semStart today dates).percentage
      = percentage (stats semStart today dates).workingDays
        (stats semStart today dates).presentDays := rfl
  rw [h1, hfull]
  exact percentage_self _ hpos

/-- Witness for the amended C2 with semester start and today both day 0
(a Thursday): one working day, one marked day, percentage 100. -/
theorem stats_full_attendance_percentage_witness :
    (stats 0 0 [0]).percentage = 100 :=
  stats_full_attendance_percentage 0 0 [0] (by decide) (by decide)

/-- Equality of `Except` values is decidable when it is on both sides;
used to evaluate the operations below on concrete inputs. -/
def exceptDecEq {ε α : Type} [DecidableEq ε] [DecidableEq α] :
    DecidableEq (Except ε α)
  | .error e, .error f =>
    if h : e = f then .isTrue (by rw [h]) else .isFalse (by simp [h])
  | .error _, .ok _ => .isFalse (by simp)
  | .ok _, .error _ => .isFalse (by simp)
  | .ok a, .ok b =>
    if h : a = b then .isTrue (by rw [h]) else .isFalse (by simp [h])

instance {ε α : Type} [DecidableEq ε] [DecidableEq α] : DecidableEq (Except ε α) :=
  exceptDecEq

/-- The three failure messages thrown by the source `markAttendance`
(lines 497-521): missing selfie, failed WebAuthn assertion, weekend. -/
inductive MarkErr where
  | selfieNotCaptured
  | biometricFailed
  | nonWorkingDay
  deriving Repr, DecidableEq

/-- The spec's `AuthenticationRequiredError` covers the two
externally-supplied confirmations: selfie capture and the WebAuthn
biometric assertion. -/
def MarkErr.isAuthRequired : MarkErr → Bool
  | .selfieNotCaptured => true
  | .biometricFailed => true
  | .nonWorkingDay => false

/-- Source `markAttendance` (lines 497-521), with the external
collaborators abstracted to booleans: (1) throw if no selfie blob was
captured; (2) throw if the WebAuthn assertion fails; (3) throw if today
is not a weekday; otherwise push today onto the ledger unless it is
already included (`dates.includes(day)`). -/
def markAttendance (selfieCaptured waOk : Bool) (today : Nat) (dates : List Nat) :
    Except MarkErr (List Nat) :=
  if selfieCaptured = false then .error .selfieNotCaptured
  else if waOk = false then .error .biometricFailed
  else if isWeekday today = false then .error .nonWorkingDay
  else if today ∈ dates then .ok dates
  else .ok (dates ++ [today])

/-- The ledger after a `markAttendance` call: on an error the stored list
is untouched (the source only calls `saveAttendance` on the success
path). -/
def ledgerAfter (selfieCaptured waOk : Bool) (today : Nat) (dates : List Nat) :
    List Nat :=
  match markAttendance selfieCaptured waOk today dates with
  | .ok updated => updated
  | .error _ => dates

example : markAttendance true true 4 [] = .ok [4] := by decide
example : markAttendance true true 2 [] = .error .nonWorkingDay := by decide
example : markAttendance true true 4 [4] = .ok [4] := by decide
example : markAttendance true false 2 [] = .error .biometricFailed := by decide

/-- Counterexample for C3 as stated: day 2 is a Saturday, yet with the
selfie not captured the call fails with the selfie (authentication)
error rather than `NonWorkingDayError` — the authentication checks run
before the weekend check. -/
theorem markAttendance_weekend_without_selfie_cex :
    isWeekday 2 = false ∧
    markAttendance false true 2 [] = .error .selfieNotCaptured ∧
    markAttendance false true 2 [] ≠ .error .nonWorkingDay := by
  decide

/-- Claim C3 as amended: `markToday` fails with an authentication error
(selfie or biometric) whenever either confirmation is missing; when both
confirmations hold it fails with `NonWorkingDayError` on Saturday or
Sunday; and when both hold on a weekday it appends today to the ledger
only if it is not already present. -/
theorem markAttendance_error_order (selfieCaptured waOk : Bool) (today : Nat)
    (dates : List Nat) :
    ((selfieCaptured = false ∨ waOk = false) →
      ∃ e, markAttendance selfieCaptured waOk today dates = .error e ∧
        e.isAuthRequired = true) ∧
    (selfieCaptured = true → waOk = true → isWeekday today = false →
      markAttendance selfieCaptured waOk today dates = .error .nonWorkingDay) ∧
    (selfieCaptured = true → waOk = true → isWeekday today = true →
      markAttendance selfieCaptured waOk today dates =
        .ok (if today ∈ dates then dates else dates ++ [today])) := by
  refine ⟨?_, ?_, ?_⟩
  · rintro (h | h)
    · exact ⟨.selfieNotCaptured, by simp [markAttendance, h], rfl⟩
    · cases hs : selfieCaptured
      · exact ⟨.selfieNotCaptured, by simp [markAttendance], rfl⟩
      · exact ⟨.biometricFailed, by simp [markAttendance, h], rfl⟩
  · intro hs hw hd
    simp [markAttendance, hs, hw, hd]
  · intro hs hw hd
    by_cases hmem : today ∈ dates <;> simp [markAttendance, hs, hw, hd, hmem]

/-- Witness for the amended C3: on Saturday day 2 with both confirmations
satisfied the call fails with `NonWorkingDayError`. -/
theorem markAttendance_error_order_witness :
    markAttendance true true 2 [] = .error .nonWorkingDay :=
  (markAttendance_error_order true true 2 []).2.1 rfl rfl (by decide)

/-- Claim C4: marking twice on the same day yields the same ledger as
marking once, for every ledger, day and confirmation outcome. -/
theorem markAttendance_idempotent (selfieCaptured waOk : Bool) (today : Nat)
    (dates : List Nat) :
    ledgerAfter selfieCaptured waOk today
        (ledgerAfter selfieCaptured waOk today dates) =
      ledgerAfter selfieCaptured waOk today dates := by
  cases selfieCaptured <;> cases waOk <;>
    simp only [ledgerAfter, markAttendance] <;> try rfl
  cases hd : isWeekday today
  · rfl
  · by_cases hmem : today ∈ dates
    · simp [hd, hmem]
    · simp [hd, hmem]

/-- A user record as stored in the localStorage user table.  `password`
and `webauthn` are absent (`none` / `false`) until set; the source leaves
them `undefined` on a freshly verified record. -/
structure Account where
  collegeId : String
  email : String
  phone : String
  password : Option String
  webauthn : Bool
  deriving Repr, DecidableEq

/-- The localStorage table `sca_users_v1`, keyed by college id. -/
def UserTable : Type := String → Option Account

/-- Source `upsertUser` (line 229): `users[user.collegeId] = user`. -/
def upsertUser (users : UserTable) (u : Account) : UserTable :=
  fun k => if k = u.collegeId then some u else users k

/-- The login failure messages of source `doLogin` (lines 435-446). -/
inductive LoginErr where
  | notFound
  | noPasswordSet
  | invalidCredentials
  deriving Repr, DecidableEq

/-- Source `doLogin` (lines 435-446): look the account up (the UI trims
the entered id first; the model receives the trimmed id); `!u` gives the
not-found error; `!u.password` — a missing or empty password — gives the
password-not-set error; a mismatch gives invalid credentials; otherwise
the session is set to `u.collegeId`. -/
def doLogin (users : UserTable) (collegeId password : String) :
    Except LoginErr String :=
  match users collegeId with
  | none => .error .notFound
  | some u =>
    match u.password with
    | none => .error .noPasswordSet
    | some p =>
      if p = "" then .error .noPasswordSet
      else if p ≠ password then .error .invalidCredentials
      else .ok u.collegeId

/-- Claim C5: `login` fails with `NotFoundError` when no account exists,
with `NoPasswordSetError` when the account has no password (in the
source's sense of a falsy `u.password`: absent or empty), with
`InvalidCredentialsError` when the stored password differs from the
supplied one, and otherwise establishes the session as that college id
(every table the program builds keys each record by its own
`collegeId`). -/
theorem doLogin_cases (users : UserTable) (cid pw : String) :
    (users cid = none → doLogin users cid pw = .error .notFound) ∧
    (∀ u, users cid = some u → (u.password = none ∨ u.password = some "") →
      doLogin users cid pw = .error .noPasswordSet) ∧
    (∀ u p, users cid = some u → u.password = some p → p ≠ "" → p ≠ pw →
      doLogin users cid pw = .error .invalidCredentials) ∧
    (∀ u p, users cid = some u → u.collegeId = cid → u.password = some p →
      p ≠ "" → p = pw → doLogin users cid pw = .ok cid) := by
  refine ⟨?_, ?_, ?_, ?_⟩
  · intro h
    simp [doLogin, h]
  · rintro u hu (hp | hp) <;> simp [doLogin, hu, hp]
  · intro u p hu hp hne hmis
    simp [doLogin, hu, hp, hne, hmis]
  · intro u p hu hk hp hne heq
    subst heq
    simp [doLogin, hu, hp, hne, hk]

/-- A concrete user table for the login witness: one record keyed by its
own college id with password `secret1`. -/
def sampleUsers : UserTable :=
  fun k =>
    if k = "S001" then
      some { collegeId := "S001", email := "a@b.c", phone := "123"
             password := some "secret1", webauthn := false }
    else none

/-- Witness for C5: with the sample table, logging in as `S001` with the
stored password succeeds and establishes the session as `S001`. -/
theorem doLogin_cases_witness :
    doLogin sampleUsers "S001" "secret1" = .ok "S001" :=
  (doLogin_cases sampleUsers "S001" "secret1").2.2.2
    { collegeId := "S001", email := "a@b.c", phone := "123"
      password := some "secret1", webauthn := false }
    "secret1" rfl rfl rfl (by decide) rfl

/-- The failure of source `verifyOTP` (line 468): entered code differs
from the last issued one. -/
inductive OtpErr where
  | incorrectOtp
  deriving Repr, DecidableEq

/-- Source `verifyOTP` (lines 466-476): reject on OTP mismatch; otherwise
take the existing record (or seed `{ collegeId }` with everything else
absent), overwrite its `email` and `phone` from the form, and upsert
it. -/
def verifyOTP (enteredOtp otpCode : String) (users : UserTable)
    (collegeId email phone : String) : Except OtpErr UserTable :=
  if enteredOtp ≠ otpCode then .error .incorrectOtp
  else
    let u := (users collegeId).getD
      { collegeId := collegeId, email := "", phone := ""
        password := none, webauthn := false }
    .ok (upsertUser users { u with email := email, phone := phone })

/-- Claim C10: for an existing account, a successful `verifyCode` updates
only the `email` and `phone` fields of the stored record — its
`collegeId`, `password` and `webauthn` fields are kept, so a previously
set password is not reset — and every other key of the table is left
unchanged. -/
theorem verifyOTP_frame (enteredOtp otpCode : String) (users : UserTable)
    (cid email phone : String) (a : Account)
    (hok : enteredOtp = otpCode) (ha : users cid = some a) :
    ∃ users1, verifyOTP enteredOtp otpCode users cid email phone = .ok users1 ∧
      users1 a.collegeId =
        some { collegeId := a.collegeId, email := email, phone := phone
               password := a.password, webauthn := a.webauthn } ∧
      (∀ k, k ≠ a.collegeId → users1 k = users k) := by
  subst hok
  refine ⟨upsertUser users { a with email := email, phone := phone }, ?_, ?_, ?_⟩
  · simp [verifyOTP, ha]
  · simp [upsertUser]
  · intro k hk
    simp [upsertUser, hk]

/-- Witness for C10: re-verifying `S001` in the sample table changes its
email and phone but keeps the stored password `secret1`. -/
theorem verifyOTP_frame_witness :
    ∃ users1,
      verifyOTP "424242" "424242" sampleUsers "S001" "new@b.c" "999" = .ok users1 ∧
      users1 "S001" =
        some { collegeId := "S001", email := "new@b.c", phone := "999"
               password := some "secret1", webauthn := false } ∧
      (∀ k, k ≠ "S001" → users1 k = sampleUsers k) :=
  verifyOTP_frame "424242" "424242" sampleUsers "S001" "new@b.c" "999"
    { collegeId := "S001", email := "a@b.c", phone := "123"
      password := some "secret1", webauthn := false }
    rfl rfl

/-- The failure messages of source `setPassword` (lines 478-495). -/
inductive SetPassErr where
  | weakPassword
  | mismatch
  | userNotFound
  deriving Repr, DecidableEq

/-- Source `setPassword` (lines 478-495), with WebAuthn enrollment
abstracted to the boolean `bioOk` (the result of
`createWebAuthnCredential`): reject a password shorter than 6 characters
(`!form.password ||` is subsumed, the empty string being shorter than
6); reject a mismatching confirmation; reject when no record exists for
the id; otherwise store the password and upsert, then on successful
enrollment re-read the record, set `webauthn` and upsert again; in both
cases the result is the new table together with the session, set to
`u.collegeId`. -/
def setPassword (users : UserTable) (collegeId password confirm : String)
    (bioOk : Bool) : Except SetPassErr (UserTable × String) :=
  if password.length < 6 then .error .weakPassword
  else if password ≠ confirm then .error .mismatch
  else
    match users collegeId with
    | none => .error .userNotFound
    | some u =>
      let users1 := upsertUser users { u with password := some password }
      let users2 :=
        if bioOk then
          match users1 u.collegeId with
          | some v => upsertUser users1 { v with webauthn := true }
          | none => users1
        else users1
      .ok (users2, u.collegeId)

/-- Counterexample for C9 as stated: with an empty user table, a valid
6-character password and matching confirmation, `setPassword` does not
store anything — it fails with the user-not-found error, a failure mode
the claim does not list. -/
theorem setPassword_missing_account_cex :
    setPassword (fun _ => none) "S001" "abcdef" "abcdef" true =
      .error .userNotFound := rfl

/-- Claim C9 as amended: `setPassword` fails with `WeakPasswordError`
when the password is shorter than 6 characters, with `MismatchError`
when password and confirmation differ, and with a user-not-found error
when no account exists for the id; otherwise it stores the password on
the account and establishes the session, whether or not the subsequent
biometric enrollment succeeds (`bioOk` arbitrary). -/
theorem setPassword_cases (users : UserTable) (cid pw confirm : String)
    (bioOk : Bool) :
    (pw.length < 6 → setPassword users cid pw confirm bioOk = .error .weakPassword) ∧
    (6 ≤ pw.length → pw ≠ confirm →
      setPassword users cid pw confirm bioOk = .error .mismatch) ∧
    (6 ≤ pw.length → pw = confirm → users cid = none →
      setPassword users cid pw confirm bioOk = .error .userNotFound) ∧
    (∀ u, 6 ≤ pw.length → pw = confirm → users cid = some u →
      ∃ users2, setPassword users cid pw confirm bioOk = .ok (users2, u.collegeId) ∧
        users2 u.collegeId =
          some { collegeId := u.collegeId, email := u.email, phone := u.phone
                 password := some pw
                 webauthn := if bioOk then true else u.webauthn }) := by
  refine ⟨?_, ?_, ?_, ?_⟩
  · intro h
    simp [setPassword, h]
  · intro hlen hne
    simp [setPassword, Nat.not_lt.mpr hlen, hne]
  · intro hlen heq hnone
    subst heq
    simp [setPassword, Nat.not_lt.mpr hlen, hnone]
  · intro u hlen heq hu
    subst heq
    cases bioOk
    · refine ⟨upsertUser users { u with password := some pw }, ?_, ?_⟩
      · simp [setPassword, Nat.not_lt.mpr hlen, hu]
      · simp [upsertUser]
    · refine ⟨upsertUser (upsertUser users { u with password := some pw })
          { u with password := some pw, webauthn := true }, ?_, ?_⟩
      · simp [setPassword, Nat.not_lt.mpr hlen, hu, upsertUser]
      · simp [upsertUser]

/-- Witness for the amended C9: setting password `abcdef` for `S001` in
the sample table with failed biometric enrollment still stores the
password and yields the session `S001`. -/
theorem setPassword_cases_witness :
    ∃ users2,
      setPassword sampleUsers "S001" "abcdef" "abcdef" false = .ok (users2, "S001") ∧
      users2 "S001" =
        some { collegeId := "S001", email := "a@b.c", phone := "123"
               password := some "abcdef", webauthn := if false then true else false } :=
  (setPassword_cases sampleUsers "S001" "abcdef" "abcdef" false).2.2.2
    { collegeId := "S001", email := "a@b.c", phone := "123"
      password := some "secret1", webauthn := false }
    (by decide) rfl rfl

/-- The attendance-relevant part of the app state: the stored ledger, the
user-editable semester start (`semStart` input, line 703), and the
current day. -/
structure AppState where
  dates : List Nat
  semStart : Nat
  today : Nat
  deriving Repr, DecidableEq

/-- The state transitions the UI offers: a `markAttendance` call (which
updates the ledger on success and leaves it untouched on an error), a
change of the semester start date, and the passage of a day. -/
inductive AppStep : AppState → AppState → Prop
  | mark (st : AppState) (selfieCaptured waOk : Bool) (newDates : List Nat)
      (h : markAttendance selfieCaptured waOk st.today st.dates = .ok newDates) :
      AppStep st ⟨newDates, st.semStart, st.today⟩
  | markFailed (st : AppState) (selfieCaptured waOk : Bool) (e : MarkErr)
      (h : markAttendance selfieCaptured waOk st.today st.dates = .error e) :
      AppStep st st
  | setSemStart (st : AppState) (d : Nat) : AppStep st ⟨st.dates, d, st.today⟩
  | nextDay (st : AppState) : AppStep st ⟨st.dates, st.semStart, st.today + 1⟩

/-- Reachability: the app starts with an empty ledger and the default
semester start (the first day of the current month, hence not after
today), and evolves by `AppStep`. -/
inductive ReachableState : AppState → Prop
  | init (s0 t0 : Nat) (h : s0 ≤ t0) : ReachableState ⟨[], s0, t0⟩
  | step (a b : AppState) (ha : ReachableState a) (hs : AppStep a b) :
      ReachableState b

/-- Counterexample for C8 as stated: mark attendance on Monday day 4,
then move the semester start to day 5 (after today).  The resulting
reachable state has `presentDays = 1` but `workingDays = 0`, so the
claimed invariant fails — the user-mutable semester start is not tied to
the ledger. -/
theorem reachable_present_exceeds_working_cex :
    ∃ st, ReachableState st ∧
      ¬ ((stats st.semStart st.today st.dates).presentDays ≤
          (stats st.semStart st.today st.dates).workingDays) := by
  refine ⟨⟨[4], 5, 4⟩, ?_, by decide⟩
  have h0 : ReachableState ⟨[], 4, 4⟩ := ReachableState.init 4 4 (by decide)
  have h1 : ReachableState ⟨[4], 4, 4⟩ :=
    ReachableState.step _ _ h0 (AppStep.mark ⟨[], 4, 4⟩ true true [4] (by decide))
  exact ReachableState.step _ _ h1 (AppStep.setSemStart ⟨[4], 4, 4⟩ 5)

/-- Claim C8 as amended: `presentDays ≤ workingDays` does hold whenever
the ledger's dates are pairwise distinct weekdays lying between the
semester start and today — the situation the marking flow produces as
long as the semester window is not edited out from under the ledger. -/
theorem presentDays_le_workingDays (semStart today : Nat) (dates : List Nat)
    (hnd : dates.Nodup)
    (hin : ∀ d ∈ dates, semStart ≤ d ∧ d ≤ today ∧ isWeekday d = true) :
    (stats semStart today dates).presentDays ≤
      (stats semStart today dates).workingDays := by
  show dates.length ≤ workingDaysCount semStart today
  rw [workingDaysCount, List.countP_eq_length_filter]
  have hlen : (dates.map (fun d => d - semStart)).length = dates.length :=
    List.length_map _ _
  rw [← hlen]
  refine List.Subperm.length_le (List.Nodup.subperm ?_ ?_)
  · refine List.Nodup.map_on ?_ hnd
    intro x hx y hy hxy
    have hxs := (hin x hx).1
    have hys := (hin y hy).1
    omega
  · intro i hi
    rcases List.mem_map.mp hi with ⟨d, hd, rfl⟩
    rcases hin d hd with ⟨h1, h2, h3⟩
    rw [List.mem_filter]
    constructor
    · rw [List.mem_range]
      omega
    · have : semStart + (d - semStart) = d := by omega
      rw [this, h3]

/-- Witness for the amended C8: days 0 and 1 are a Thursday and Friday,
within the window from day 0 to day 6, which holds 5 working days. -/
theorem presentDays_le_workingDays_witness :
    (stats 0 6 [0, 1]).presentDays ≤ (stats 0 6 [0, 1]).workingDays :=
  presentDays_le_workingDays 0 6 [0, 1] (by decide) (by decide)

end SmartAttendance
